import Mathlib

/-!
Verification of the camera-manager / rate-limiter / code-analysis service
(`core.py`, `api.py`).

The embedding models, faithfully to the Python source:

* `CameraManager` (class `CameraManager` in `core.py`): the mutable fields
  `_cap`, `_task`, `_running`, `_paused`, `_latest_frame`, plus a ghost
  counter `opens` recording how many times `cv2.VideoCapture` was called.
  `_cap` is modelled as `Option Bool`: `none` when `_cap is None`,
  `some b` when `_cap` holds a capture object whose OS resource is still
  open (`b = true`) or already released (`b = false`).
  `_task` is modelled as `Option TaskStatus`: `none` when `_task is None`,
  otherwise the status of the asyncio task running `_capture_loop`
  (`active`, finished normally, or finished with an uncaught exception —
  awaiting the latter re-raises, which `stop` does at line 69).
  The model fixes `cv2` and the camera functionality as importable
  (`cv2 is not None`), which every claim about the camera presumes.

* one iteration of `_capture_loop` (lines 89–116 of `core.py`) as a pure
  function `capture_iter` of the current `_latest_frame` and a `TickEnv`
  recording the outcomes of the external calls of that iteration
  (`_cap.read`, `cv2.cvtColor`, and the JPEG encoder).  The module-level
  choice of encoder (`Image is not None`, i.e. Pillow importable) is the
  parameter `pil`.

* the whole system as a step function `step` over events (the four public
  operations plus one capture-loop iteration), with `run` folding a trace,
  so that reachability from the freshly constructed manager is expressible.

* `TokenBucket` from `api.py` over `ℚ` (exact arithmetic in place of
  Python floats; the algorithmic structure is unchanged).

* `analyze_code` from `core.py`, with the results of `ast.parse`, of
  `ast.walk` and of the optional AI review supplied as inputs.
-/

namespace AIProduct

/-- Encoded image bytes (a Python `bytes` value), as a list of byte values. -/
abbrev Frame := List Nat

/-- Status of the asyncio task created for `_capture_loop`: still running,
finished normally, or finished with an uncaught exception (in which case
`await`ing it re-raises that exception). -/
inductive TaskStatus
  | active
  | doneOk
  | doneExn
  deriving DecidableEq

/-- Errors that cross the `CameraManager` boundary: the
`RuntimeError("Unable to open camera device")` of `start` (line 51 of
`core.py`), and an exception re-raised by `await self._task` inside `stop`
(line 69) when the capture loop died with an uncaught exception. -/
inductive CamError
  | deviceUnavailable
  | captureException
  deriving DecidableEq

/-- The mutable state of a `CameraManager` instance (`core.py`, lines
32–40), plus the ghost counter `opens`. -/
structure CameraManager where
  cap : Option Bool
  task : Option TaskStatus
  running : Bool
  paused : Bool
  latest_frame : Option Frame
  opens : Nat
  deriving DecidableEq

/-- The state of a freshly constructed `CameraManager` (`__init__`,
lines 32–40): no capture object, no task, not running, not paused, no
frame. -/
def initCM : CameraManager :=
  { cap := none, task := none, running := false, paused := false,
    latest_frame := none, opens := 0 }

/-- The abstract lifecycle state of the spec's state machine, read off the
`_running` / `_paused` flags: `Stopped` iff not running; `Paused` iff
running with the paused flag set. -/
inductive CamState
  | stopped
  | runningS
  | pausedS
  deriving DecidableEq

/-- The abstract state of a manager: `_running = false` is `Stopped`;
otherwise `_paused` distinguishes `Paused` from `Running`. -/
def CameraManager.state (s : CameraManager) : CamState :=
  if s.running then (if s.paused then .pausedS else .runningS) else .stopped

/-- Number of open (not yet released) OS device handles held by the
manager: one exactly when `_cap` holds a capture object whose resource is
still open. -/
def CameraManager.openHandles (s : CameraManager) : Nat :=
  match s.cap with
  | some true => 1
  | _ => 0

/-- `CameraManager.start` (`core.py`, lines 42–55), with the success of
opening the device (`self._cap.isOpened()`) supplied as `openOk`.
If `_running` is set it returns at once (line 45–46).  Otherwise it calls
`cv2.VideoCapture` (counted by the ghost `opens`) and stores the object in
`_cap` (line 47); if the device did not open it releases the handle and
raises (lines 49–51) — note `_cap` keeps pointing at the released object;
on success it sets `_running`, clears `_paused` and spawns the capture
task (lines 53–55). -/
def CameraManager.start (openOk : Bool) (s : CameraManager) :
    CameraManager × Except CamError Unit :=
  if s.running then (s, .ok ())
  else if openOk then
    ({ s with cap := some true, running := true, paused := false,
              task := some .active, opens := s.opens + 1 }, .ok ())
  else
    ({ s with cap := some false, opens := s.opens + 1 },
     .error .deviceUnavailable)

/-- `CameraManager.pause` (`core.py`, lines 57–58): unconditionally sets
`_paused`. -/
def CameraManager.pause (s : CameraManager) : CameraManager :=
  { s with paused := true }

/-- `CameraManager.resume` (`core.py`, lines 60–64): when not running it
delegates to `start`; otherwise it clears `_paused`. -/
def CameraManager.resume (openOk : Bool) (s : CameraManager) :
    CameraManager × Except CamError Unit :=
  if s.running then ({ s with paused := false }, .ok ())
  else s.start openOk

/-- `CameraManager.stop` (`core.py`, lines 66–73): clears `_running`,
awaits the task when `_task` is set (an `active` loop observes the cleared
flag at its next check and exits normally; a task that already died with
an exception re-raises it here, so the lines releasing `_cap` and clearing
`_task` are never reached), then releases and clears `_cap` and clears
`_task`. -/
def CameraManager.stop (s : CameraManager) :
    CameraManager × Except CamError Unit :=
  let s1 := { s with running := false }
  match s1.task with
  | some .doneExn => (s1, .error .captureException)
  | _ => ({ s1 with cap := none, task := none }, .ok ())

/-- `CameraManager.get_latest_frame` (`core.py`, lines 82–84): returns
`_latest_frame` (the lock acquisition has no observable effect on the
value returned). -/
def CameraManager.get_latest_frame (s : CameraManager) : Option Frame :=
  s.latest_frame

/-- The dictionary returned by `CameraManager.status` (`core.py`,
lines 75–80). -/
structure Status where
  running : Bool
  paused : Bool
  has_frame : Bool
  deriving DecidableEq

/-- `CameraManager.status` (`core.py`, lines 75–80). -/
def CameraManager.status (s : CameraManager) : Status :=
  { running := s.running, paused := s.paused,
    has_frame := s.latest_frame.isSome }

/-- Outcomes of the external calls made by one capture-loop iteration:
`readOk` is the `ret` returned by `_cap.read` (line 94); `convertOk` is
whether `cv2.cvtColor` (line 100) returned without raising; `encodeOk` is,
on the Pillow path, whether `img.save` (line 105) returned without
raising, and on the fallback path the `ret2` returned by `cv2.imencode`
(line 109); `jpeg` is the encoder's output bytes when encoding
succeeded. -/
structure TickEnv where
  readOk : Bool
  convertOk : Bool
  encodeOk : Bool
  jpeg : Frame
  deriving DecidableEq

/-- What one iteration of `_capture_loop` does to the loop: either the
loop continues with the given new value of `_latest_frame`, or an
exception escaped the iteration (there is no `except` clause in the loop;
the `try`/`finally` at lines 88 and 117–119 only runs `pass` and
re-raises), terminating the loop. -/
inductive IterOutcome
  | advance (latest : Option Frame)
  | raised
  deriving DecidableEq

/-- One non-paused iteration of `_capture_loop` (`core.py`, lines 94–116),
given the current `_latest_frame` and the environment's responses.
A failed read sleeps and retries, publishing nothing (lines 95–97).
An exception from `cv2.cvtColor` escapes the loop (line 100).
With Pillow present (`pil = true`), a successful encode publishes the
JPEG bytes (lines 102–106, 113–114) and an exception from encoding
escapes the loop.  Without Pillow, a failed `cv2.imencode` sets `jpeg`
to `None` (lines 110–111) and that `None` is then published into
`_latest_frame` (lines 113–114), clearing the store. -/
def capture_iter (pil : Bool) (latest : Option Frame) (env : TickEnv) :
    IterOutcome :=
  if !env.readOk then .advance latest
  else if !env.convertOk then .raised
  else if pil then
    if env.encodeOk then .advance (some env.jpeg) else .raised
  else
    if env.encodeOk then .advance (some env.jpeg) else .advance none

/-- A fully successful iteration environment: the read, the conversion and
the encoding all succeed, so the iteration publishes `some jpeg`. -/
def TickEnv.success (env : TickEnv) : Bool :=
  env.readOk && env.convertOk && env.encodeOk

/-- Events driving the system: the four public operations (with the
outcome of the device open supplied where one may happen) and one
scheduled iteration of the capture loop. -/
inductive Event
  | evStart (openOk : Bool)
  | evPause
  | evResume (openOk : Bool)
  | evStop
  | evTick (env : TickEnv)
  deriving DecidableEq

/-- One step of the system.  A tick only acts when the capture task is
live; the loop first re-checks `self._running and self._cap is not None`
(line 89) and exits normally when it fails, then checks `_paused`
(lines 90–92, sleeping without touching the device), and otherwise runs
one iteration, whose published value lands in `_latest_frame` under the
lock (lines 113–114), or whose escaped exception ends the task. -/
def step (pil : Bool) (s : CameraManager) (e : Event) : CameraManager :=
  match e with
  | .evStart openOk => (s.start openOk).1
  | .evPause => s.pause
  | .evResume openOk => (s.resume openOk).1
  | .evStop => s.stop.1
  | .evTick env =>
    if s.task = some .active then
      if s.running && s.cap.isSome then
        if s.paused then s
        else
          match capture_iter pil s.latest_frame env with
          | .advance l => { s with latest_frame := l }
          | .raised => { s with task := some .doneExn }
      else { s with task := some .doneOk }
    else s

/-- Run a trace of events from a state. -/
def run (pil : Bool) (s : CameraManager) (tr : List Event) : CameraManager :=
  tr.foldl (step pil) s

/-- A trace none of whose ticks is fully successful (so no iteration ever
publishes an encoded frame). -/
def noSuccessTick (tr : List Event) : Bool :=
  tr.all fun e =>
    match e with
    | .evTick env => !env.success
    | _ => true

/-- HTTP responses of `GET /camera/frame` (`api.py`, lines 94–99): the
404 `HTTPException` or a 200 `StreamingResponse` with the JPEG body. -/
inductive FrameResponse
  | notFound
  | okJpeg (body : Frame)
  deriving DecidableEq

/-- The `camera_frame` handler (`api.py`, lines 94–99): it 404s when
`get_latest_frame` returned a falsy value — `None`, but also the empty
bytes object (`if not frame`). -/
def camera_frame (s : CameraManager) : FrameResponse :=
  match s.get_latest_frame with
  | none => .notFound
  | some b => if b = [] then .notFound else .okJpeg b

/-- A clock whose readings never decrease along a sequence of `consume`
calls (each call a pair of a `time.time()` reading and a requested
amount), starting from the bucket's stored timestamp. -/
def clockMono : ℚ → List (ℚ × ℚ) → Bool
  | _, [] => true
  | t, c :: cs => decide (t ≤ c.1) && clockMono c.1 cs

/-- The per-caller rate-limit bucket of `api.py` (lines 11–16), over exact
rationals in place of Python floats.  A fresh bucket starts full, with its
timestamp at the current clock reading. -/
structure TokenBucket where
  rate : ℚ
  capacity : ℚ
  tokens : ℚ
  timestamp : ℚ
  deriving DecidableEq

/-- `TokenBucket.__init__` (`api.py`, lines 12–16) at clock reading
`now`. -/
def TokenBucket.init (rate capacity now : ℚ) : TokenBucket :=
  { rate := rate, capacity := capacity, tokens := capacity, timestamp := now }

/-- The lazily refilled token count computed at the top of `consume`
(`api.py`, lines 19–21): the stored count plus elapsed-time × rate,
capped at the capacity. -/
def TokenBucket.refilled (b : TokenBucket) (now : ℚ) : ℚ :=
  min b.capacity (b.tokens + (now - b.timestamp) * b.rate)

/-- `TokenBucket.consume` (`api.py`, lines 18–26), with the reading of
`time.time()` supplied as `now` and the requested amount as `req`:
refill lazily, advance the timestamp, then take `req` tokens and return
`True` exactly when at least `req` are available. -/
def TokenBucket.consume (b : TokenBucket) (now req : ℚ) :
    TokenBucket × Bool :=
  let avail := b.refilled now
  if req ≤ avail then
    ({ b with tokens := avail - req, timestamp := now }, true)
  else
    ({ b with tokens := avail, timestamp := now }, false)

/-- Fold a sequence of `consume` calls, each a pair of a clock reading and
a requested amount, over a bucket. -/
def runConsume (b : TokenBucket) (calls : List (ℚ × ℚ)) : TokenBucket :=
  calls.foldl (fun b c => (b.consume c.1 c.2).1) b

/-- The `syntax_error` dictionary built by `analyze_code` (`core.py`,
lines 135–139): the message and the `lineno` / `offset` attributes of the
`SyntaxError` (each of which may be `None`). -/
structure SynErrInfo where
  msg : String
  lineno : Option Nat
  offset : Option Nat
  deriving DecidableEq

/-- The nodes of the parsed tree as `analyze_code` discriminates them
while walking it: function definitions, class definitions, `except`
handlers (bare or typed, with the handler's `lineno` attribute when
present), and everything else. -/
inductive PyNode
  | functionDef
  | classDef
  | exceptHandler (hasType : Bool) (lineno : Option Nat)
  | otherNode
  deriving DecidableEq

/-- The result of `ast.parse` (`core.py`, lines 132–134): either the tree
(given as the node list `ast.walk` would produce) or a `SyntaxError`. -/
inductive ParseResult
  | parsed (tree : List PyNode)
  | synError (info : SynErrInfo)
  deriving DecidableEq

/-- One entry of the `notes` list (`core.py`, lines 151–154 and 162–163),
in the order the code appends them: TODO/FIXME lines, long lines, and
bare-`except` lines (the latter recorded as optional line numbers, from
`getattr(node, "lineno", None)`). -/
inductive Note
  | todos (lines : List Nat)
  | long_lines (lines : List Nat)
  | bare_except (lines : List (Option Nat))
  deriving DecidableEq

/-- The `metrics` dictionary once populated (`core.py`, lines 143–146). -/
structure Metrics where
  lines : Nat
  functions : Nat
  classes : Nat
  deriving DecidableEq

/-- The dictionary `analyze_code` returns: `metrics := none` models the
still-empty `{}` of the early `SyntaxError` return, and `ai_review :=
none` models the key being absent. -/
structure AnalysisResult where
  syntax_error : Option SynErrInfo
  metrics : Option Metrics
  notes : List Note
  ai_review : Option String
  deriving DecidableEq

/-- Python's `str.splitlines` restricted to `"\n"` separators: every line
of the string, without a trailing empty piece when the string ends in a
newline. -/
def pySplitlines (s : String) : List String :=
  if s = "" then []
  else if s.endsWith "\n" then (s.splitOn "\n").dropLast
  else s.splitOn "\n"

/-- Python's substring test `pat in l` for a non-empty pattern. -/
def strContains (l pat : String) : Bool :=
  (l.splitOn pat).length != 1

/-- `analyze_code` (`core.py`, lines 122–189), with the result of
`ast.parse` supplied as `parse`, the raw text as `code`, and the outcome
of the optional best-effort AI review as `ai` (`none` when the client is
absent, unconfigured, or failed — every failure path of lines 166–184
leaves `ai_review = None`).  On a `SyntaxError` it returns early with the
error recorded and `metrics` / `notes` still empty (lines 132–140);
otherwise it fills the metrics (lines 143–146), appends the notes in
order (lines 149–163), and attaches `ai_review` only when the review is
truthy (lines 186–187). -/
def analyze_code (parse : ParseResult) (code : String) (ai : Option String) :
    AnalysisResult :=
  match parse with
  | .synError info =>
    { syntax_error := some info, metrics := none, notes := [],
      ai_review := none }
  | .parsed tree =>
    let lines := pySplitlines code
    let metrics : Metrics :=
      { lines := lines.length,
        functions := (tree.filter (fun n => n = .functionDef)).length,
        classes := (tree.filter (fun n => n = .classDef)).length }
    let todos :=
      (lines.enum.filter
        (fun p => strContains p.2 "TODO" || strContains p.2 "FIXME")).map
        (fun p => p.1 + 1)
    let long_lines :=
      (lines.enum.filter (fun p => 120 < p.2.length)).map (fun p => p.1 + 1)
    let bares :=
      tree.filterMap fun n =>
        match n with
        | .exceptHandler false ln => some ln
        | _ => none
    let notes :=
      (if todos ≠ [] then [Note.todos todos] else []) ++
      (if long_lines ≠ [] then [Note.long_lines long_lines] else []) ++
      (if bares ≠ [] then [Note.bare_except bares] else [])
    let ai_review :=
      match ai with
      | some r => if r = "" then none else some r
      | none => none
    { syntax_error := none, metrics := some metrics, notes := notes,
      ai_review := ai_review }

end AIProduct

deriving instance DecidableEq for Except

namespace AIProduct

/-! Theorems.  Shared lemmas come first; each claim's theorem follows. -/

theorem start_fst_latest (openOk : Bool) (s : CameraManager) :
    ((s.start openOk).1).latest_frame = s.latest_frame := by
  unfold CameraManager.start
  split_ifs <;> rfl

theorem stop_fst_latest (s : CameraManager) :
    (s.stop.1).latest_frame = s.latest_frame := by
  rcases s with ⟨cap, task, running, paused, latest, opens⟩
  rcases task with _ | ts
  · rfl
  · cases ts <;> rfl

theorem step_latest_none (pil : Bool) (s : CameraManager) (e : Event)
    (hs : s.latest_frame = none)
    (he : ∀ env, e = .evTick env → env.success = false) :
    (step pil s e).latest_frame = none := by
  cases e with
  | evStart openOk => rw [step, start_fst_latest]; exact hs
  | evPause => exact hs
  | evResume openOk =>
    show ((s.resume openOk).1).latest_frame = none
    unfold CameraManager.resume
    split_ifs with hr
    · exact hs
    · rw [start_fst_latest]; exact hs
  | evStop => rw [step, stop_fst_latest]; exact hs
  | evTick env =>
    have hsucc : env.success = false := he env rfl
    rcases env with ⟨r, c, k, j⟩
    simp only [TickEnv.success] at hsucc
    show (step pil s (.evTick ⟨r, c, k, j⟩)).latest_frame = none
    unfold step
    split_ifs with h1 h2 h3
    · exact hs
    · cases r <;> cases c <;> cases k <;> cases pil <;>
        simp_all [capture_iter, TickEnv.success]
    · exact hs
    · exact hs

theorem run_latest_none (pil : Bool) (tr : List Event) :
    ∀ s : CameraManager, s.latest_frame = none → noSuccessTick tr = true →
      (run pil s tr).latest_frame = none := by
  induction tr with
  | nil => intro s hs _; exact hs
  | cons e tr ih =>
    intro s hs hn
    simp only [noSuccessTick, List.all_cons, Bool.and_eq_true] at hn
    refine ih (step pil s e) ?_ ?_
    · refine step_latest_none pil s e hs ?_
      intro env heq
      subst heq
      simpa using hn.1
    · exact hn.2

/-- C1 counterexample.  When Pillow is absent and `cv2.imencode` reports
failure, the iteration continues but publishes `None`, so the Frame Store
does not retain the previous frame; and with Pillow present, an exception
from the conversion/encoding stage escapes and terminates the loop —
contradicting the claim that every convert/encode failure keeps the loop
alive and the prior frame in place. -/
theorem C1_counterexample :
    capture_iter false (some [1, 2]) ⟨true, true, false, []⟩ =
      .advance none ∧
    (IterOutcome.advance none ≠ .advance (some [1, 2])) ∧
    capture_iter true (some [1, 2]) ⟨true, true, false, []⟩ = .raised := by
  decide

/-- C1 (amended): a failed device read publishes nothing, retains the
prior frame and keeps the loop alive; when Pillow is absent, a failed
`cv2.imencode` keeps the loop alive but publishes `None`, clearing the
Frame Store; an exception from `cv2.cvtColor`, or from the Pillow encode,
escapes the iteration and terminates the loop. -/
theorem C1_amended_capture_iter_failures (pil : Bool) (latest : Option Frame)
    (env : TickEnv) :
    (env.readOk = false → capture_iter pil latest env = .advance latest) ∧
    (env.readOk = true → env.convertOk = true → env.encodeOk = false →
      capture_iter false latest env = .advance none) ∧
    (env.readOk = true → env.convertOk = false →
      capture_iter pil latest env = .raised) ∧
    (env.readOk = true → env.convertOk = true → env.encodeOk = false →
      capture_iter true latest env = .raised) := by
  rcases env with ⟨r, c, k, j⟩
  refine ⟨?_, ?_, ?_, ?_⟩ <;> intros <;> subst_vars <;> cases pil <;>
    simp [capture_iter]

theorem C1_amended_capture_iter_failures_witness :
    capture_iter false (some [3]) ⟨false, true, true, [4]⟩ =
      .advance (some [3]) ∧
    capture_iter false (some [3]) ⟨true, true, false, [4]⟩ = .advance none ∧
    capture_iter true (some [3]) ⟨true, false, true, [4]⟩ = .raised ∧
    capture_iter true (some [3]) ⟨true, true, false, [4]⟩ = .raised := by
  refine ⟨?_, ?_, ?_, ?_⟩
  · exact (C1_amended_capture_iter_failures false (some [3])
      ⟨false, true, true, [4]⟩).1 rfl
  · exact (C1_amended_capture_iter_failures false (some [3])
      ⟨true, true, false, [4]⟩).2.1 rfl rfl rfl
  · exact (C1_amended_capture_iter_failures true (some [3])
      ⟨true, false, true, [4]⟩).2.2.1 rfl rfl
  · exact (C1_amended_capture_iter_failures true (some [3])
      ⟨true, true, false, [4]⟩).2.2.2 rfl rfl rfl

/-- C2: `start` on a Stopped manager with a device that fails to open
raises `DeviceUnavailable`; exactly one `cv2.VideoCapture` handle was
created and its resource is released before the error propagates (the
resulting manager holds no open handle), and the manager's state — its
`_running`/`_paused` flags, task and frame untouched — remains
`Stopped`. -/
theorem C2_start_failure_no_leak (s : CameraManager)
    (hst : s.state = .stopped) :
    s.start false =
      ({ s with cap := some false, opens := s.opens + 1 },
       .error .deviceUnavailable) ∧
    ((s.start false).1).state = .stopped ∧
    ((s.start false).1).openHandles = 0 := by
  have hr : s.running = false := by
    by_cases h : s.running
    · simp [CameraManager.state, h] at hst
      split_ifs at hst
    · simpa using h
  have h1 : s.start false =
      ({ s with cap := some false, opens := s.opens + 1 },
       .error .deviceUnavailable) := by
    unfold CameraManager.start
    rw [hr]
    rfl
  refine ⟨h1, ?_, ?_⟩
  · rw [h1]
    simp [CameraManager.state, hr]
  · rw [h1]
    rfl

theorem C2_start_failure_no_leak_witness :
    initCM.start false =
      ({ initCM with cap := some false, opens := initCM.opens + 1 },
       .error .deviceUnavailable) ∧
    ((initCM.start false).1).state = .stopped ∧
    ((initCM.start false).1).openHandles = 0 :=
  C2_start_failure_no_leak initCM (by decide)

/-- C3 counterexample.  Two reachable states defeat the claim.  After a
failed `start` the manager is Stopped, yet `stop` is not a no-op: `_cap`
still holds the released capture object, so `stop` releases it a second
time and clears it, changing the state.  And after the capture task died
of an iteration exception, `stop` re-raises that exception from
`await self._task`, returning abnormally with the device handle still
open and `_task` still set — not the promised clean Stopped result. -/
theorem C3_counterexample :
    ((run false initCM [.evStart false]).state = .stopped ∧
      ((run false initCM [.evStart false]).stop).1 ≠
        run false initCM [.evStart false]) ∧
    (((run false initCM
          [.evStart true, .evTick ⟨true, false, true, []⟩]).stop).2 =
        .error .captureException ∧
      (((run false initCM
          [.evStart true, .evTick ⟨true, false, true, []⟩]).stop).1).openHandles
        = 1 ∧
      (((run false initCM
          [.evStart true, .evTick ⟨true, false, true, []⟩]).stop).1).task ≠
        none) := by
  decide

/-- C3 (amended): whenever the capture task has not terminated with an
uncaught exception, `stop` returns normally with `_running` cleared, the
capture object released and cleared, and `_task` cleared — a Stopped
manager holding no open handle; when the task did terminate with an
exception, `stop` re-raises it after clearing `_running`, leaving `_cap`
and `_task` untouched; and `stop` on a Stopped manager is a no-op exactly
when no capture object or task reference lingers (after a failed `start`
it additionally clears the released capture object). -/
theorem C3_amended_stop_behavior (s : CameraManager) :
    (s.task ≠ some .doneExn →
      s.stop = ({ s with running := false, cap := none, task := none },
        .ok ())) ∧
    (s.task = some .doneExn →
      s.stop = ({ s with running := false }, .error .captureException)) ∧
    (s.state = .stopped → s.cap = none → s.task = none →
      s.stop = (s, .ok ())) := by
  rcases s with ⟨cap, task, running, paused, latest, opens⟩
  refine ⟨?_, ?_, ?_⟩
  · intro h
    rcases task with _ | ts
    · rfl
    · cases ts
      · rfl
      · rfl
      · simp at h
  · intro h
    have h' : task = some .doneExn := h
    subst h'
    rfl
  · intro hst hcap htask
    have h' : task = none := htask
    have hc' : cap = none := hcap
    subst h' hc'
    cases running with
    | false => rfl
    | true => cases paused <;> simp [CameraManager.state] at hst

theorem C3_amended_stop_behavior_witness :
    initCM.stop = (initCM, .ok ()) :=
  (C3_amended_stop_behavior initCM).2.2 rfl rfl rfl

/-- C4: `start` on a Running or Paused manager returns immediately,
changing nothing; and starting twice from the initial state leaves the
manager Running having called `cv2.VideoCapture` exactly once, with the
single capture task it spawned. -/
theorem C4_start_idempotent :
    (∀ (s : CameraManager) (openOk : Bool),
      s.state = .runningS ∨ s.state = .pausedS →
        s.start openOk = (s, .ok ())) ∧
    (((((initCM.start true).1).start true).1).state = .runningS ∧
      ((((initCM.start true).1).start true).1).opens = 1 ∧
      ((((initCM.start true).1).start true).1).task = some .active) := by
  constructor
  · intro s openOk hst
    have hr : s.running = true := by
      by_cases h : s.running
      · exact h
      · rcases hst with hst | hst <;> simp [CameraManager.state, h] at hst
    unfold CameraManager.start
    rw [hr]
    rfl
  · decide

theorem C4_start_idempotent_witness :
    ((initCM.start true).1).start false = ((initCM.start true).1, .ok ()) :=
  C4_start_idempotent.1 (initCM.start true).1 false (Or.inl (by decide))

/-- C5 counterexample.  A successful capture tick has occurred, yet a
later tick on the Pillow-less path whose `cv2.imencode` fails publishes
`None`, after which `get_latest_frame` returns absence and the endpoint
404s — defeating "after at least one successful tick, non-empty
bytes". -/
theorem C5_counterexample :
    ((run false initCM
        [.evStart true, .evTick ⟨true, true, true, [7]⟩]).get_latest_frame =
      some [7]) ∧
    ((run false initCM
        [.evStart true, .evTick ⟨true, true, true, [7]⟩,
         .evTick ⟨true, true, false, []⟩]).get_latest_frame = none) ∧
    camera_frame
      (run false initCM
        [.evStart true, .evTick ⟨true, true, true, [7]⟩,
         .evTick ⟨true, true, false, []⟩]) = .notFound := by
  decide

/-- C5 (amended): along any trace none of whose capture ticks fully
succeeds, `get_latest_frame` returns absence and `GET /camera/frame`
responds 404; a fully successful tick (on a live, unpaused capture)
publishes exactly the bytes the encoder produced, and the endpoint then
serves them with a 200 whenever they are non-empty — but a later
Pillow-less tick whose `cv2.imencode` fails resets the store to absence
(the 404 returns), as the counterexample shows. -/
theorem C5_amended_frame_visibility :
    (∀ (pil : Bool) (tr : List Event), noSuccessTick tr = true →
      (run pil initCM tr).get_latest_frame = none ∧
      camera_frame (run pil initCM tr) = .notFound) ∧
    (∀ (pil : Bool) (s : CameraManager) (env : TickEnv),
      s.task = some .active → s.running = true → s.cap.isSome = true →
      s.paused = false → env.success = true →
        (step pil s (.evTick env)).get_latest_frame = some env.jpeg ∧
        (env.jpeg ≠ [] →
          camera_frame (step pil s (.evTick env)) = .okJpeg env.jpeg)) := by
  constructor
  · intro pil tr hn
    have h := run_latest_none pil tr initCM rfl hn
    refine ⟨h, ?_⟩
    simp [camera_frame, CameraManager.get_latest_frame, h]
  · intro pil s env hact hrun hcap hpau hsucc
    rcases env with ⟨r, c, k, j⟩
    simp only [TickEnv.success, Bool.and_eq_true] at hsucc
    obtain ⟨⟨hr, hc⟩, hk⟩ := hsucc
    subst hr hc hk
    have hstep : (step pil s (.evTick ⟨true, true, true, j⟩)) =
        { s with latest_frame := some j } := by
      unfold step
      rw [hact, hrun, hcap, hpau]
      cases pil <;> rfl
    rw [hstep]
    refine ⟨rfl, ?_⟩
    intro hj
    simp [camera_frame, CameraManager.get_latest_frame, hj]

theorem C5_amended_frame_visibility_witness :
    ((run false initCM [.evStart true, .evTick ⟨true, false, true, [2]⟩,
        .evPause, .evStop]).get_latest_frame = none ∧
      camera_frame (run false initCM
        [.evStart true, .evTick ⟨true, false, true, [2]⟩,
         .evPause, .evStop]) = .notFound) ∧
    ((step true ((initCM.start true).1)
        (.evTick ⟨true, true, true, [8, 8]⟩)).get_latest_frame =
      some [8, 8] ∧
      camera_frame (step true ((initCM.start true).1)
        (.evTick ⟨true, true, true, [8, 8]⟩)) = .okJpeg [8, 8]) := by
  constructor
  · exact C5_amended_frame_visibility.1 false
      [.evStart true, .evTick ⟨true, false, true, [2]⟩, .evPause, .evStop]
      (by decide)
  · have h := C5_amended_frame_visibility.2 true ((initCM.start true).1)
      ⟨true, true, true, [8, 8]⟩ (by decide) (by decide) (by decide)
      (by decide) (by decide)
    exact ⟨h.1, h.2 (by decide)⟩

/-- C6 counterexample.  `pause` is the unconditional assignment
`self._paused = True`, so calling it on the freshly constructed (Stopped,
unpaused) manager changes the stored state and the dictionary `status`
reports — not a no-op — even though the abstract state stays Stopped. -/
theorem C6_counterexample :
    initCM.state = .stopped ∧
    initCM.pause ≠ initCM ∧
    (initCM.pause).status ≠ initCM.status ∧
    (initCM.pause).state = .stopped := by
  decide

/-- C6 (amended): `pause` never touches the device (`_cap` and the open
count are untouched) and only sets `_paused`: from Running the state
becomes Paused; when already Paused it is a true no-op; from a Stopped
manager the abstract state remains Stopped, but the `_paused` flag —
visible through `status` — is newly set. -/
theorem C6_amended_pause_behavior (s : CameraManager) :
    ((s.pause).cap = s.cap ∧ (s.pause).opens = s.opens) ∧
    (s.state = .runningS → (s.pause).state = .pausedS) ∧
    (s.state = .pausedS → s.pause = s) ∧
    (s.state = .stopped →
      (s.pause).state = .stopped ∧ s.pause = { s with paused := true }) := by
  rcases s with ⟨cap, task, running, paused, latest, opens⟩
  refine ⟨⟨rfl, rfl⟩, ?_, ?_, ?_⟩
  · intro h
    cases running <;> cases paused <;>
      simp_all [CameraManager.state, CameraManager.pause]
  · intro h
    cases running <;> cases paused <;>
      simp_all [CameraManager.state, CameraManager.pause]
  · intro h
    cases running <;> cases paused <;>
      simp_all [CameraManager.state, CameraManager.pause]

theorem C6_amended_pause_behavior_witness :
    ((initCM.pause).state = .stopped ∧
      initCM.pause = { initCM with paused := true }) :=
  (C6_amended_pause_behavior initCM).2.2.2 rfl

theorem consume_fields (b : TokenBucket) (now req : ℚ) :
    ((b.consume now req).1).rate = b.rate ∧
    ((b.consume now req).1).capacity = b.capacity ∧
    ((b.consume now req).1).timestamp = now := by
  rw [TokenBucket.consume]
  split_ifs <;> exact ⟨rfl, rfl, rfl⟩

theorem consume_inv (b : TokenBucket) (now req : ℚ)
    (hrate : 0 ≤ b.rate) (h0 : 0 ≤ b.tokens) (hc : b.tokens ≤ b.capacity)
    (ht : b.timestamp ≤ now) (hreq : 0 ≤ req) :
    0 ≤ ((b.consume now req).1).tokens ∧
    ((b.consume now req).1).tokens ≤ b.capacity := by
  have hcap0 : 0 ≤ b.capacity := le_trans h0 hc
  have hdelta : 0 ≤ b.tokens + (now - b.timestamp) * b.rate := by
    have := mul_nonneg (sub_nonneg.mpr ht) hrate
    linarith
  have havail0 : 0 ≤ b.refilled now := le_min hcap0 hdelta
  have havailc : b.refilled now ≤ b.capacity := min_le_left _ _
  rw [TokenBucket.consume]
  split_ifs with h
  · constructor
    · exact sub_nonneg.mpr h
    · calc b.refilled now - req ≤ b.refilled now := by linarith
        _ ≤ b.capacity := havailc
  · exact ⟨havail0, havailc⟩

theorem clockMono_take (calls : List (ℚ × ℚ)) :
    ∀ (t : ℚ) (n : ℕ), clockMono t calls = true →
      clockMono t (calls.take n) = true := by
  induction calls with
  | nil => intro t n _; simp [clockMono]
  | cons c cs ih =>
    intro t n h
    cases n with
    | zero => rfl
    | succ n =>
      simp only [clockMono, Bool.and_eq_true] at h
      simp only [List.take_succ_cons, clockMono, Bool.and_eq_true]
      exact ⟨h.1, ih c.1 n h.2⟩

theorem runConsume_inv (calls : List (ℚ × ℚ)) :
    ∀ b : TokenBucket, 0 ≤ b.rate → 0 ≤ b.tokens → b.tokens ≤ b.capacity →
      clockMono b.timestamp calls = true → (∀ c ∈ calls, 0 ≤ c.2) →
      0 ≤ (runConsume b calls).tokens ∧
      (runConsume b calls).tokens ≤ (runConsume b calls).capacity := by
  induction calls with
  | nil => intro b _ h2 h3 _ _; exact ⟨h2, h3⟩
  | cons c cs ih =>
    intro b h1 h2 h3 hm hr
    simp only [clockMono, Bool.and_eq_true, decide_eq_true_eq] at hm
    obtain ⟨hle, hm'⟩ := hm
    obtain ⟨hf1, hf2, hf3⟩ := consume_fields b c.1 c.2
    have hinv := consume_inv b c.1 c.2 h1 h2 h3 hle
      (hr c (List.mem_cons_self c cs))
    have hrun : runConsume b (c :: cs) =
        runConsume ((b.consume c.1 c.2).1) cs := rfl
    rw [hrun]
    exact ih ((b.consume c.1 c.2).1) (by rw [hf1]; exact h1) hinv.1
      (by rw [hf2]; exact hinv.2) (by rw [hf3]; exact hm')
      (fun d hd => hr d (List.mem_cons_of_mem c hd))

/-- C7: on each `consume` the token count is lazily refilled by
elapsed-time × rate and capped at the capacity, the call succeeds and
decrements exactly when at least the requested amount is available after
the refill — and along any sequence of `consume` calls with non-negative
requests and non-decreasing clock readings, a bucket starting with
`0 ≤ tokens ≤ capacity` and a non-negative rate satisfies
`0 ≤ tokens ≤ capacity` again after each call (i.e. after every prefix
of the sequence). -/
theorem C7_token_bucket_invariant :
    (∀ (b : TokenBucket) (now req : ℚ),
      (b.consume now req).2 = decide (req ≤ b.refilled now) ∧
      ((b.consume now req).1).tokens =
        (if req ≤ b.refilled now then b.refilled now - req
         else b.refilled now)) ∧
    (∀ (b : TokenBucket) (calls : List (ℚ × ℚ)),
      0 ≤ b.rate → 0 ≤ b.tokens → b.tokens ≤ b.capacity →
      clockMono b.timestamp calls = true →
      (∀ c ∈ calls, 0 ≤ c.2) →
      ∀ n, 0 ≤ (runConsume b (calls.take n)).tokens ∧
        (runConsume b (calls.take n)).tokens ≤
          (runConsume b (calls.take n)).capacity) := by
  constructor
  · intro b now req
    rw [TokenBucket.consume]
    split_ifs with h <;> exact ⟨by simp [h], rfl⟩
  · intro b calls h1 h2 h3 hm hr n
    exact runConsume_inv (calls.take n) b h1 h2 h3
      (clockMono_take calls b.timestamp n hm)
      (fun c hc => hr c (List.take_subset n calls hc))

theorem C7_token_bucket_invariant_witness :
    0 ≤ (runConsume (TokenBucket.init 1 5 0)
        ([((1 : ℚ), (1 : ℚ)), (2, 1)].take 2)).tokens ∧
      (runConsume (TokenBucket.init 1 5 0)
        ([((1 : ℚ), (1 : ℚ)), (2, 1)].take 2)).tokens ≤
        (runConsume (TokenBucket.init 1 5 0)
          ([((1 : ℚ), (1 : ℚ)), (2, 1)].take 2)).capacity :=
  C7_token_bucket_invariant.2 (TokenBucket.init 1 5 0)
    [((1 : ℚ), (1 : ℚ)), (2, 1)] (by decide) (by decide) (by decide)
    (by decide) (by decide) 2

/-- C8: `stop` never touches `_latest_frame`, so after stopping,
`get_latest_frame` still returns whatever was last stored; concretely,
after a successful capture tick publishing `[9, 9]` followed by `stop`,
the stopped manager still serves that stale frame. -/
theorem C8_stop_preserves_frame :
    (∀ s : CameraManager,
      ((s.stop).1).get_latest_frame = s.get_latest_frame) ∧
    ((run false initCM
        [.evStart true, .evTick ⟨true, true, true, [9, 9]⟩, .evStop]).state
        = .stopped ∧
      (run false initCM
        [.evStart true, .evTick ⟨true, true, true, [9, 9]⟩,
         .evStop]).get_latest_frame = some [9, 9]) := by
  constructor
  · intro s
    exact stop_fst_latest s
  · decide

/-- C10: when `ast.parse` raises a `SyntaxError`, `analyze_code` returns
(rather than raising — the `except` path ends in `return results`) a
dictionary whose `syntax_error` entry holds the message, line number and
offset, with `metrics` still the empty dictionary, `notes` still empty
and no `ai_review`; and when parsing succeeds, the returned
`syntax_error` entry is `None`. -/
theorem C10_analyze_code_syntax_error :
    (∀ (info : SynErrInfo) (code : String) (ai : Option String),
      analyze_code (.synError info) code ai =
        { syntax_error := some info, metrics := none, notes := [],
          ai_review := none }) ∧
    (∀ (tree : List PyNode) (code : String) (ai : Option String),
      (analyze_code (.parsed tree) code ai).syntax_error = none) :=
  ⟨fun _ _ _ => rfl, fun _ _ _ => rfl⟩

end AIProduct
